import Mathlib

/-!
Verification of the predictive-maintenance backend: health scoring,
event debouncing, lifecycle guards, score blending, ingestion
validation, storage point shapes, validation metrics and the batch
anomaly detector, embedded shallowly over rational arithmetic.
-/

namespace PredMaint

/-- Python `round` to the nearest integer, ties to even (banker's
rounding), on rationals. -/
def pyRound (q : ℚ) : ℤ :=
  if q - ⌊q⌋ < 1/2 then ⌊q⌋
  else if 1/2 < q - ⌊q⌋ then ⌊q⌋ + 1
  else if ⌊q⌋ % 2 = 0 then ⌊q⌋ else ⌊q⌋ + 1

/-- Python `round(q, n)`: round to `n` decimal places, ties to even. -/
def pyRoundTo (n : ℕ) (q : ℚ) : ℚ :=
  (pyRound (q * 10 ^ n) : ℚ) / 10 ^ n

theorem pyRound_le (q : ℚ) : (pyRound q : ℚ) ≤ q + 1/2 := by
  have hf : (⌊q⌋ : ℚ) ≤ q := Int.floor_le q
  have hc : q < (⌊q⌋ : ℚ) + 1 := Int.lt_floor_add_one q
  unfold pyRound
  split_ifs <;> push_cast <;> linarith

theorem le_pyRound (q : ℚ) : q - 1/2 ≤ (pyRound q : ℚ) := by
  have hf : (⌊q⌋ : ℚ) ≤ q := Int.floor_le q
  have hc : q < (⌊q⌋ : ℚ) + 1 := Int.lt_floor_add_one q
  unfold pyRound
  split_ifs <;> push_cast <;> linarith

theorem pyRound_floor_le (q : ℚ) : ⌊q⌋ ≤ pyRound q := by
  unfold pyRound
  split_ifs <;> omega

theorem pyRound_le_floor_add_one (q : ℚ) : pyRound q ≤ ⌊q⌋ + 1 := by
  unfold pyRound
  split_ifs <;> omega

/-- Banker's rounding is monotone. -/
theorem pyRound_mono {a b : ℚ} (h : a ≤ b) : pyRound a ≤ pyRound b := by
  rcases lt_or_eq_of_le (Int.floor_mono h) with hfl | hfe
  · calc pyRound a ≤ ⌊a⌋ + 1 := pyRound_le_floor_add_one a
      _ ≤ ⌊b⌋ := by omega
      _ ≤ pyRound b := pyRound_floor_le b
  · have hra : a - (⌊a⌋ : ℚ) ≤ b - (⌊b⌋ : ℚ) := by
      rw [hfe]; linarith
    unfold pyRound
    rw [hfe] at hra ⊢
    split_ifs <;> first | omega | linarith

/-- An integer strictly above `x - 1` is at least `⌈x⌉`-like: bounds for
rounding a value known to lie in `[lo, hi]` with integer `lo`, `hi`. -/
theorem pyRound_nonneg {q : ℚ} (h : 0 ≤ q) : 0 ≤ pyRound q := by
  have := pyRound_floor_le q
  have : (0:ℤ) ≤ ⌊q⌋ := Int.floor_nonneg.mpr h
  omega

theorem pyRound_le_of_le {q : ℚ} {n : ℤ} (h : q ≤ n) : pyRound q ≤ n := by
  have h1 := pyRound_le q
  have h2 : (pyRound q : ℚ) ≤ (n : ℚ) + 1/2 := by linarith
  have h3 : pyRound q ≤ n := by
    by_contra hc
    push_neg at hc
    have : (n : ℚ) + 1 ≤ (pyRound q : ℚ) := by exact_mod_cast hc
    linarith
  exact h3

-- ===========================================================================
-- C1 — HealthAssessor.compute_health_score (src/backend/rules/assessor.py)
-- ===========================================================================

/-- `HealthAssessor.compute_health_score` (assessor.py lines 122-156):
clamp the anomaly score to `[0,1]`, apply the three-zone piecewise
linear map, then `int(round(max(0, min(100, health))))`. -/
def compute_health_score (anomaly_score : ℚ) : ℤ :=
  let clamped_score := max 0 (min 1 anomaly_score)
  let health : ℚ :=
    if clamped_score < 15/100 then
      100 - (clamped_score / (15/100)) * 20
    else if clamped_score < 35/100 then
      80 - ((clamped_score - 15/100) / (20/100)) * 30
    else
      50 - ((clamped_score - 35/100) / (65/100)) * 50
  pyRound (max 0 (min 100 health))

/-- The health map exactly as the spec words it: the piecewise value on
the raw score `a ∈ [0,1]`. -/
def healthSpecValue (a : ℚ) : ℚ :=
  if a < 15/100 then 100 - (a / (15/100)) * 20
  else if a < 35/100 then 80 - ((a - 15/100) / (20/100)) * 30
  else 50 - ((a - 35/100) / (65/100)) * 50

/-- Spec-side health score: round to nearest integer, then clamp to
`[0,100]`. -/
def healthSpec (a : ℚ) : ℤ :=
  max 0 (min 100 (pyRound (healthSpecValue a)))

theorem healthSpecValue_bounds {a : ℚ} (h0 : 0 ≤ a) (h1 : a ≤ 1) :
    0 ≤ healthSpecValue a ∧ healthSpecValue a ≤ 100 := by
  unfold healthSpecValue
  split_ifs with h h' <;> constructor <;> nlinarith

/-- The in-code health value is antitone on `[0,1]`. -/
theorem healthSpecValue_antitone {a b : ℚ} (_h0 : 0 ≤ a) (hab : a ≤ b)
    (_h1 : b ≤ 1) : healthSpecValue b ≤ healthSpecValue a := by
  unfold healthSpecValue
  split_ifs <;> nlinarith

theorem pyRound_intCast (n : ℤ) : pyRound (n : ℚ) = n := by
  unfold pyRound
  rw [Int.floor_intCast]
  norm_num

theorem compute_health_score_eq_healthSpec {a : ℚ} (h0 : 0 ≤ a)
    (h1 : a ≤ 1) : compute_health_score a = healthSpec a := by
  have hclamp : max 0 (min 1 a) = a := by
    rw [min_eq_right h1, max_eq_right h0]
  have hb := healthSpecValue_bounds h0 h1
  have hr0 : 0 ≤ pyRound (healthSpecValue a) := pyRound_nonneg hb.1
  have hr100 : pyRound (healthSpecValue a) ≤ 100 :=
    pyRound_le_of_le (by exact_mod_cast hb.2)
  show pyRound (max 0 (min 100 (healthSpecValue (max 0 (min 1 a)))))
    = healthSpec a
  rw [hclamp]
  unfold healthSpec
  rw [min_eq_right hb.2, max_eq_right hb.1, min_eq_right hr100,
    max_eq_right hr0]

theorem compute_health_score_antitone {a b : ℚ} (h0 : 0 ≤ a) (hab : a ≤ b)
    (h1 : b ≤ 1) : compute_health_score b ≤ compute_health_score a := by
  rw [compute_health_score_eq_healthSpec h0 (le_trans hab h1),
    compute_health_score_eq_healthSpec (le_trans h0 hab) h1]
  unfold healthSpec
  have hmono : pyRound (healthSpecValue b) ≤ pyRound (healthSpecValue a) :=
    pyRound_mono (healthSpecValue_antitone h0 hab h1)
  omega

/-- Claim C1: on `[0,1]` the code's health score equals the spec's
piecewise formula rounded to the nearest integer and clamped to
`[0,100]`; it is monotonically non-increasing; and it takes the values
100, 80, 50, 0 at anomaly scores 0, 0.15, 0.35, 1 respectively. -/
theorem claim_C1 :
    (∀ a : ℚ, 0 ≤ a → a ≤ 1 → compute_health_score a = healthSpec a)
    ∧ (∀ a b : ℚ, 0 ≤ a → a ≤ b → b ≤ 1 →
        compute_health_score b ≤ compute_health_score a)
    ∧ compute_health_score 0 = 100
    ∧ compute_health_score (15/100) = 80
    ∧ compute_health_score (35/100) = 50
    ∧ compute_health_score 1 = 0 := by
  refine ⟨fun a h0 h1 => compute_health_score_eq_healthSpec h0 h1,
    fun a b h0 hab h1 => compute_health_score_antitone h0 hab h1, ?_, ?_, ?_, ?_⟩
  · rw [compute_health_score_eq_healthSpec (by norm_num) (by norm_num)]
    have hv : healthSpecValue 0 = ((100 : ℤ) : ℚ) := by
      unfold healthSpecValue; norm_num
    unfold healthSpec
    rw [hv, pyRound_intCast]
    norm_num
  · rw [compute_health_score_eq_healthSpec (by norm_num) (by norm_num)]
    have hv : healthSpecValue (15/100) = ((80 : ℤ) : ℚ) := by
      unfold healthSpecValue; norm_num
    unfold healthSpec
    rw [hv, pyRound_intCast]
    norm_num
  · rw [compute_health_score_eq_healthSpec (by norm_num) (by norm_num)]
    have hv : healthSpecValue (35/100) = ((50 : ℤ) : ℚ) := by
      unfold healthSpecValue; norm_num
    unfold healthSpec
    rw [hv, pyRound_intCast]
    norm_num
  · rw [compute_health_score_eq_healthSpec (by norm_num) (by norm_num)]
    have hv : healthSpecValue 1 = ((0 : ℤ) : ℚ) := by
      unfold healthSpecValue; norm_num
    unfold healthSpec
    rw [hv, pyRound_intCast]
    norm_num

/-- Witness for C1 at the concrete anomaly score 1/10. -/
theorem claim_C1_witness :
    compute_health_score (1/10) = healthSpec (1/10)
    ∧ compute_health_score (9/10) ≤ compute_health_score (1/10) := by
  exact ⟨claim_C1.1 (1/10) (by norm_num) (by norm_num),
    claim_C1.2.1 (1/10) (9/10) (by norm_num) (by norm_num) (by norm_num)⟩

-- ===========================================================================
-- C2, C3 — EventEngine.evaluate (src/backend/events/engine.py)
-- ===========================================================================

/-- Event type constants (engine.py lines 33-35). -/
inductive EventType
  | ANOMALY_DETECTED
  | ANOMALY_CLEARED
  | HEARTBEAT
deriving DecidableEq

/-- Severity constants (engine.py lines 37-39). -/
inductive EventSeverity
  | info
  | warning
  | critical
deriving DecidableEq

/-- An emitted event; the timestamp and the free-text message are
dropped, the `type` and `severity` the claims speak about are kept. -/
structure Event where
  type : EventType
  severity : EventSeverity
deriving DecidableEq

/-- `_AssetState.DEBOUNCE_COUNT` (engine.py line 143). -/
def DEBOUNCE_COUNT : Nat := 2

/-- `_AssetState` (engine.py lines 136-149): per-asset tracker. -/
structure AssetState where
  previous_is_faulty : Option Bool
  consecutive_faulty : Nat
  consecutive_healthy : Nat
deriving DecidableEq

/-- A fresh `_AssetState()`. -/
def AssetState.init : AssetState :=
  { previous_is_faulty := none, consecutive_faulty := 0,
    consecutive_healthy := 0 }

/-- `EventEngine.evaluate` (engine.py lines 190-298) for a single
asset, as a pure step on the tracker state. -/
def evaluate (state : AssetState) (is_faulty : Bool) :
    AssetState × List Event :=
  match state.previous_is_faulty with
  | none =>
    ({ state with previous_is_faulty := some is_faulty }, [])
  | some prev =>
    if is_faulty = prev then
      (if is_faulty then { state with consecutive_healthy := 0 }
       else { state with consecutive_faulty := 0 }, [])
    else
      let state1 :=
        if is_faulty then
          { state with consecutive_faulty := state.consecutive_faulty + 1,
                       consecutive_healthy := 0 }
        else
          { state with consecutive_healthy := state.consecutive_healthy + 1,
                       consecutive_faulty := 0 }
      if is_faulty ∧ state1.consecutive_faulty < DEBOUNCE_COUNT then
        (state1, [])
      else if ¬ is_faulty ∧ state1.consecutive_healthy < DEBOUNCE_COUNT then
        (state1, [])
      else
        let event : Event :=
          if is_faulty ∧ prev = false then
            { type := .ANOMALY_DETECTED, severity := .critical }
          else
            { type := .ANOMALY_CLEARED, severity := .info }
        ({ previous_is_faulty := some is_faulty, consecutive_faulty := 0,
           consecutive_healthy := 0 }, [event])

/-- Run a trace of `is_faulty` observations from a state, collecting
all emitted events in order. -/
def runTrace (state : AssetState) : List Bool → AssetState × List Event
  | [] => (state, [])
  | b :: bs =>
    let stepped := evaluate state b
    let rest := runTrace stepped.1 bs
    (rest.1, stepped.2 ++ rest.2)

/-- The only event that can be emitted while the tracker remembers
`previous_is_faulty = some p`. -/
def flipEvent (p : Bool) : Event :=
  if p then { type := .ANOMALY_CLEARED, severity := .info }
  else { type := .ANOMALY_DETECTED, severity := .critical }

theorem flipEvent_type_ne {p b : Bool} (h : p ≠ b) :
    (flipEvent p).type ≠ (flipEvent b).type := by
  cases p <;> cases b <;> simp_all [flipEvent]

/-- One step from a seeded tracker either keeps the remembered state
and emits nothing, or flips it and emits exactly `flipEvent p`. -/
theorem evaluate_some_cases (p b : Bool) (cf ch : Nat) :
    ((evaluate ⟨some p, cf, ch⟩ b).1.previous_is_faulty = some p
      ∧ (evaluate ⟨some p, cf, ch⟩ b).2 = [])
    ∨ (p ≠ b ∧ (evaluate ⟨some p, cf, ch⟩ b).1 = ⟨some b, 0, 0⟩
      ∧ (evaluate ⟨some p, cf, ch⟩ b).2 = [flipEvent p]) := by
  cases p <;> cases b <;>
    simp [evaluate, flipEvent, DEBOUNCE_COUNT] <;>
    split_ifs <;> simp_all

theorem runTrace_chain (p : Bool) (cf ch : Nat) (bs : List Bool) :
    List.Chain' (fun e1 e2 => e1.type ≠ e2.type)
      (runTrace ⟨some p, cf, ch⟩ bs).2
    ∧ (∀ e, ((runTrace ⟨some p, cf, ch⟩ bs).2).head? = some e →
        e = flipEvent p) := by
  induction bs generalizing p cf ch with
  | nil => simp [runTrace]
  | cons b bs ih =>
    rcases evaluate_some_cases p b cf ch with ⟨hprev, hev⟩ | ⟨hne, hst, hev⟩
    · rcases hst : (evaluate ⟨some p, cf, ch⟩ b).1 with ⟨pf, cf', ch'⟩
      have hpf : pf = some p := by rw [hst] at hprev; exact hprev
      subst hpf
      have := ih p cf' ch'
      constructor
      · simpa [runTrace, hev, hst] using this.1
      · intro e he
        apply this.2
        simpa [runTrace, hev, hst] using he
    · have hrest := ih b 0 0
      have hgoal : (runTrace ⟨some p, cf, ch⟩ (b :: bs)).2
          = flipEvent p :: (runTrace ⟨some b, 0, 0⟩ bs).2 := by
        simp [runTrace, hev, hst]
      constructor
      · rw [hgoal, List.chain'_cons']
        refine ⟨?_, hrest.1⟩
        intro y hy
        have : y = flipEvent b := hrest.2 y hy
        rw [this]
        exact flipEvent_type_ne hne
      · intro e he
        rw [hgoal] at he
        simp only [List.head?_cons, Option.some.injEq] at he
        exact he.symm

/-- Claim C2: from a fresh tracker, any trace of observations produces
an event sequence with strictly alternating types, and the first-ever
evaluation seeds the tracker and emits no event. -/
theorem claim_C2 :
    (∀ bs : List Bool,
      List.Chain' (fun e1 e2 => e1.type ≠ e2.type)
        (runTrace AssetState.init bs).2)
    ∧ (∀ b : Bool, (evaluate AssetState.init b).2 = []
        ∧ (evaluate AssetState.init b).1.previous_is_faulty = some b) := by
  constructor
  · intro bs
    cases bs with
    | nil => simp [runTrace]
    | cons b bs =>
      have h1 : evaluate AssetState.init b
          = (⟨some b, 0, 0⟩, []) := rfl
      rw [show (runTrace AssetState.init (b :: bs)).2
          = (evaluate AssetState.init b).2
            ++ (runTrace (evaluate AssetState.init b).1 bs).2 from rfl, h1]
      simpa using (runTrace_chain b 0 0 bs).1
  · intro b
    exact ⟨rfl, rfl⟩

/-- Claim C3: with a contrary observation whose consecutive counter
(after increment) is still below `DEBOUNCE_COUNT = 2`, `evaluate`
returns no event; conversely an event is only emitted once the
matching counter has reached the threshold. -/
theorem claim_C3 :
    (∀ (s : AssetState) (p b : Bool), s.previous_is_faulty = some p →
      b ≠ p →
      (if b then s.consecutive_faulty else s.consecutive_healthy) + 1
          < DEBOUNCE_COUNT →
      (evaluate s b).2 = [])
    ∧ (∀ (s : AssetState) (b : Bool) (e : Event),
        e ∈ (evaluate s b).2 →
        ∃ p, s.previous_is_faulty = some p ∧ b ≠ p ∧
          DEBOUNCE_COUNT ≤
            (if b then s.consecutive_faulty else s.consecutive_healthy) + 1) := by
  constructor
  · rintro ⟨pf, cf, ch⟩ p b hpf hne hcnt
    subst hpf
    cases p <;> cases b <;> simp_all [evaluate, DEBOUNCE_COUNT]
  · rintro ⟨pf, cf, ch⟩ b e he
    cases pf with
    | none => simp [evaluate] at he
    | some p =>
      refine ⟨p, rfl, ?_⟩
      revert he
      cases p <;> cases b <;>
        simp [evaluate, DEBOUNCE_COUNT] <;>
        split_ifs <;> simp <;> intros <;> omega

/-- Witness for C3: a single contrary faulty reading after a healthy
seed is debounced away, and a fresh seeded tracker emits nothing. -/
theorem claim_C3_witness :
    (evaluate ⟨some false, 0, 0⟩ true).2 = [] := by
  exact claim_C3.1 ⟨some false, 0, 0⟩ false true rfl (by decide) (by decide)

-- ===========================================================================
-- C4 — Lifecycle guards (src/backend/api/system_routes.py)
-- ===========================================================================

/-- `SystemState` (system_routes.py lines 42-47). -/
inductive SystemState
  | IDLE
  | CALIBRATING
  | MONITORING_HEALTHY
  | FAULT_INJECTION
deriving DecidableEq

/-- `calibrate_system` (system_routes.py lines 649-679): guard `IDLE`;
a rejected request raises HTTP 400 before any mutation; an accepted one
spawns `run_calibration`, whose first action sets CALIBRATING. -/
def calibrate_system (s : SystemState) : Except String SystemState :=
  if s = SystemState.IDLE then .ok SystemState.CALIBRATING
  else .error "Cannot calibrate in this state. Must be IDLE."

/-- `inject_fault` (system_routes.py lines 682-731): guard
`MONITORING_HEALTHY`; on success the state is set to FAULT_INJECTION. -/
def inject_fault (s : SystemState) : Except String SystemState :=
  if s = SystemState.MONITORING_HEALTHY then .ok SystemState.FAULT_INJECTION
  else .error "Cannot inject fault in this state. Must be MONITORING_HEALTHY."

/-- `reset_system` (system_routes.py lines 734-838): guard
`{FAULT_INJECTION, MONITORING_HEALTHY}`; on success the state is set to
MONITORING_HEALTHY. -/
def reset_system (s : SystemState) : Except String SystemState :=
  if s = SystemState.FAULT_INJECTION ∨ s = SystemState.MONITORING_HEALTHY then
    .ok SystemState.MONITORING_HEALTHY
  else
    .error "Cannot reset in this state. Must be FAULT_INJECTION or MONITORING_HEALTHY."

/-- `stop_session` (system_routes.py lines 841-880): rejected while
IDLE or CALIBRATING; otherwise the state is set to IDLE. -/
def stop_session (s : SystemState) : Except String SystemState :=
  if s = SystemState.IDLE then .error "System is already IDLE."
  else if s = SystemState.CALIBRATING then
    .error "Cannot stop during calibration. Please wait for it to complete."
  else .ok SystemState.IDLE

/-- The state after an endpoint call: a raised guard leaves it as is. -/
def runEndpoint (f : SystemState → Except String SystemState)
    (s : SystemState) : SystemState :=
  match f s with
  | .ok s2 => s2
  | .error _ => s

/-- Whether the endpoint rejected the request with an error. -/
def isRejected (r : Except String SystemState) : Bool :=
  match r with
  | .error _ => true
  | .ok _ => false

/-- Claim C4: every lifecycle request whose guard does not hold is
rejected with an invalid-transition error and leaves the system state
unchanged. -/
theorem claim_C4 : ∀ s : SystemState,
    (s ≠ SystemState.IDLE → isRejected (calibrate_system s) = true
      ∧ runEndpoint calibrate_system s = s)
    ∧ (s ≠ SystemState.MONITORING_HEALTHY →
      isRejected (inject_fault s) = true ∧ runEndpoint inject_fault s = s)
    ∧ (s ≠ SystemState.FAULT_INJECTION → s ≠ SystemState.MONITORING_HEALTHY →
      isRejected (reset_system s) = true ∧ runEndpoint reset_system s = s)
    ∧ (s = SystemState.CALIBRATING → isRejected (stop_session s) = true
      ∧ runEndpoint stop_session s = s) := by
  intro s
  cases s <;> decide

/-- Witness for C4 in the CALIBRATING state: calibrate and stop are
both rejected there and the state stays CALIBRATING. -/
theorem claim_C4_witness :
    (isRejected (calibrate_system SystemState.CALIBRATING) = true
      ∧ runEndpoint calibrate_system SystemState.CALIBRATING
        = SystemState.CALIBRATING)
    ∧ (isRejected (stop_session SystemState.CALIBRATING) = true
      ∧ runEndpoint stop_session SystemState.CALIBRATING
        = SystemState.CALIBRATING) := by
  exact ⟨(claim_C4 SystemState.CALIBRATING).1 (by decide),
    (claim_C4 SystemState.CALIBRATING).2.2.2 rfl⟩

-- ===========================================================================
-- C5 — Score blending in get_health_status
-- (src/backend/api/integration_routes.py lines 317-332)
-- ===========================================================================

/-- The blended anomaly score before clamping
(integration_routes.py lines 321-330). -/
def blend_anomaly_score_raw (ml_score range_score : ℚ) : ℚ :=
  if ml_score > 7/10 ∧ range_score < 4/10 then
    range_score * (7/10) + ml_score * (3/10)
  else if ml_score < 2/10 ∧ range_score > 3/10 then
    range_score
  else
    range_score * (6/10) + ml_score * (4/10)

/-- The final anomaly score (integration_routes.py line 332):
`min(0.98, max(0.0, anomaly_score))`. -/
def blend_anomaly_score (ml_score range_score : ℚ) : ℚ :=
  min (98/100) (max 0 (blend_anomaly_score_raw ml_score range_score))

/-- Claim C5: the blend is `0.7·range + 0.3·ml` when `ml > 0.7` and
`range < 0.4`, exactly `range` when `ml < 0.2` and `range > 0.3`,
`0.6·range + 0.4·ml` otherwise, and the final value is the blend
clamped to `[0, 0.98]`. -/
theorem claim_C5 : ∀ ml_score range_score : ℚ,
    (ml_score > 7/10 → range_score < 4/10 →
      blend_anomaly_score_raw ml_score range_score
        = (7/10) * range_score + (3/10) * ml_score)
    ∧ (ml_score < 2/10 → range_score > 3/10 →
      blend_anomaly_score_raw ml_score range_score = range_score)
    ∧ (¬(ml_score > 7/10 ∧ range_score < 4/10) →
      ¬(ml_score < 2/10 ∧ range_score > 3/10) →
      blend_anomaly_score_raw ml_score range_score
        = (6/10) * range_score + (4/10) * ml_score)
    ∧ 0 ≤ blend_anomaly_score ml_score range_score
    ∧ blend_anomaly_score ml_score range_score ≤ 98/100
    ∧ blend_anomaly_score ml_score range_score
        = min (98/100)
            (max 0 (blend_anomaly_score_raw ml_score range_score)) := by
  intro ml rg
  refine ⟨?_, ?_, ?_, ?_, ?_, rfl⟩
  · intro h1 h2
    unfold blend_anomaly_score_raw
    rw [if_pos ⟨h1, h2⟩]
    ring
  · intro h1 h2
    unfold blend_anomaly_score_raw
    rw [if_neg (by rintro ⟨ha, _⟩; linarith), if_pos ⟨h1, h2⟩]
  · intro h1 h2
    unfold blend_anomaly_score_raw
    rw [if_neg h1, if_neg h2]
    ring
  · exact le_min (by norm_num) (le_max_left 0 _)
  · exact min_le_left _ _

/-- Witness for C5 at concrete scores: ML critical with mild range, and
ML healthy with faulty range. -/
theorem claim_C5_witness :
    blend_anomaly_score_raw (8/10) (1/10) = (7/10) * (1/10) + (3/10) * (8/10)
    ∧ blend_anomaly_score_raw (1/10) (5/10) = 5/10 := by
  exact ⟨(claim_C5 (8/10) (1/10)).1 (by norm_num) (by norm_num),
    (claim_C5 (1/10) (5/10)).2.1 (by norm_num) (by norm_num)⟩

-- ===========================================================================
-- C6 — Ingestion validation and server-side power_kw
-- (src/backend/api/schemas.py lines 26-51, services.py lines 13-31)
-- ===========================================================================

/-- `SignalsInput` (schemas.py lines 26-51): raw client signals; a
client-supplied `power_kw` arrives as a `some` value. -/
structure SignalsInput where
  voltage_v : ℚ
  current_a : ℚ
  power_factor : ℚ
  vibration_g : ℚ
  power_kw : Option ℚ
deriving DecidableEq

/-- Field constraints (`ge`/`le` bounds) plus the `reject_power_kw`
model validator (schemas.py lines 43-51). -/
def SignalsInput.validate (s : SignalsInput) : Except String SignalsInput :=
  if s.voltage_v < 0 then .error "voltage_v must be >= 0"
  else if s.current_a < 0 then .error "current_a must be >= 0"
  else if s.power_factor < 0 ∨ 1 < s.power_factor then
    .error "power_factor must be between 0.0 and 1.0"
  else if s.vibration_g < 0 then .error "vibration_g must be >= 0"
  else if s.power_kw ≠ none then
    .error "power_kw must not be provided by client."
  else .ok s

/-- `compute_power_kw` (services.py lines 13-31):
`round((voltage_v * current_a * power_factor) / 1000.0, 3)`. -/
def compute_power_kw (voltage_v current_a power_factor : ℚ) : ℚ :=
  pyRoundTo 3 ((voltage_v * current_a * power_factor) / 1000)

/-- A persisted signal record with the server-computed `power_kw`
(services.py lines 67-80). -/
structure StoredSignals where
  voltage_v : ℚ
  current_a : ℚ
  power_factor : ℚ
  power_kw : ℚ
  vibration_g : ℚ
deriving DecidableEq

/-- Ingestion of one sample: pydantic validation runs before the
handler body, so only a valid payload reaches `ingest_event`, which
computes `power_kw` server-side and persists the event. -/
def ingest_sample (store : List StoredSignals) (inp : SignalsInput) :
    List StoredSignals × Except String StoredSignals :=
  match inp.validate with
  | .error e => (store, .error e)
  | .ok s =>
    let ev : StoredSignals :=
      { voltage_v := s.voltage_v, current_a := s.current_a,
        power_factor := s.power_factor,
        power_kw := compute_power_kw s.voltage_v s.current_a s.power_factor,
        vibration_g := s.vibration_g }
    (store ++ [ev], .ok ev)

/-- Claim C6: a payload carrying a client-supplied `power_kw` fails
validation and mutates nothing; a payload without it (and passing the
field bounds) is ingested with
`power_kw = round(V·I·PF/1000, 3)` computed server-side. -/
theorem claim_C6 : ∀ (store : List StoredSignals) (inp : SignalsInput),
    (inp.power_kw ≠ none →
      (∃ msg, (ingest_sample store inp).2 = .error msg)
      ∧ (ingest_sample store inp).1 = store)
    ∧ (inp.power_kw = none → 0 ≤ inp.voltage_v → 0 ≤ inp.current_a →
      0 ≤ inp.power_factor → inp.power_factor ≤ 1 → 0 ≤ inp.vibration_g →
      ∃ ev, (ingest_sample store inp).2 = .ok ev
        ∧ ev.power_kw = pyRoundTo 3
            ((inp.voltage_v * inp.current_a * inp.power_factor) / 1000)
        ∧ (ingest_sample store inp).1 = store ++ [ev]) := by
  intro store inp
  constructor
  · intro h
    unfold ingest_sample SignalsInput.validate
    split_ifs <;> simp_all
  · intro hnone h1 h2 h3 h4 h5
    have hval : inp.validate = .ok inp := by
      unfold SignalsInput.validate
      rw [if_neg (not_lt.mpr h1), if_neg (not_lt.mpr h2),
        if_neg (by rw [not_or]; exact ⟨not_lt.mpr h3, not_lt.mpr h4⟩),
        if_neg (not_lt.mpr h5), if_neg (by simp [hnone])]
    unfold ingest_sample
    rw [hval]
    exact ⟨_, rfl, rfl, rfl⟩

/-- Witness for C6: a payload with `power_kw` supplied is rejected and
the store is untouched; the same payload without it is accepted. -/
theorem claim_C6_witness :
    ((∃ msg, (ingest_sample [] ⟨230, 15, 92/100, 15/100, some 5⟩).2
        = .error msg)
      ∧ (ingest_sample [] ⟨230, 15, 92/100, 15/100, some 5⟩).1 = [])
    ∧ ∃ ev, (ingest_sample [] ⟨230, 15, 92/100, 15/100, none⟩).2 = .ok ev
        ∧ ev.power_kw = pyRoundTo 3 ((230 * 15 * (92/100)) / 1000)
        ∧ (ingest_sample [] ⟨230, 15, 92/100, 15/100, none⟩).1
          = [] ++ [ev] := by
  exact ⟨(claim_C6 [] ⟨230, 15, 92/100, 15/100, some 5⟩).1 (by simp),
    (claim_C6 [] ⟨230, 15, 92/100, 15/100, none⟩).2 rfl (by norm_num)
      (by norm_num) (by norm_num) (by norm_num) (by norm_num)⟩

-- ===========================================================================
-- C8 — Validation metrics of SystemStateManager
-- (src/backend/api/system_routes.py lines 78-169)
-- ===========================================================================

/-- The metric counters of `SystemStateManager`
(system_routes.py lines 78-83). -/
structure SystemMetrics where
  healthy_total : ℕ
  healthy_correct : ℕ
  faulty_total : ℕ
  faulty_correct : ℕ
deriving DecidableEq

/-- Counters at construction / after `reset_metrics`. -/
def SystemMetrics.init : SystemMetrics := ⟨0, 0, 0, 0⟩

/-- `healthy_stability` (system_routes.py lines 115-121):
`100.0` when no healthy point was recorded, otherwise
`round((healthy_correct / healthy_total) * 100, 1)`. -/
def healthy_stability (m : SystemMetrics) : ℚ :=
  if m.healthy_total = 0 then 100
  else pyRoundTo 1 ((m.healthy_correct / m.healthy_total : ℚ) * 100)

/-- `fault_capture_rate` (system_routes.py lines 123-129). -/
def fault_capture_rate (m : SystemMetrics) : ℚ :=
  if m.faulty_total = 0 then 100
  else pyRoundTo 1 ((m.faulty_correct / m.faulty_total : ℚ) * 100)

/-- The metric-mutating operations of `SystemStateManager`
(system_routes.py lines 149-169). -/
inductive MetricOp
  | record_healthy_classification (is_low_risk : Bool)
  | record_faulty_classification (is_high_risk : Bool)
  | reset_metrics

/-- One metric mutation. -/
def applyMetricOp (m : SystemMetrics) : MetricOp → SystemMetrics
  | .record_healthy_classification b =>
    { m with healthy_total := m.healthy_total + 1,
             healthy_correct := m.healthy_correct + (if b then 1 else 0) }
  | .record_faulty_classification b =>
    { m with faulty_total := m.faulty_total + 1,
             faulty_correct := m.faulty_correct + (if b then 1 else 0) }
  | .reset_metrics => SystemMetrics.init

/-- The counter state reached by a sequence of recordings. -/
def runMetricOps (ops : List MetricOp) : SystemMetrics :=
  ops.foldl applyMetricOp SystemMetrics.init

/-- Correct counts never exceed totals. -/
def MetricsInv (m : SystemMetrics) : Prop :=
  m.healthy_correct ≤ m.healthy_total ∧ m.faulty_correct ≤ m.faulty_total

theorem applyMetricOp_inv {m : SystemMetrics} (h : MetricsInv m)
    (op : MetricOp) : MetricsInv (applyMetricOp m op) := by
  obtain ⟨h1, h2⟩ := h
  cases op with
  | record_healthy_classification b =>
    cases b <;> simp [applyMetricOp, MetricsInv] <;> omega
  | record_faulty_classification b =>
    cases b <;> simp [applyMetricOp, MetricsInv] <;> omega
  | reset_metrics =>
    simp [applyMetricOp, MetricsInv, SystemMetrics.init]

theorem runMetricOps_inv (ops : List MetricOp) :
    MetricsInv (runMetricOps ops) := by
  have main : ∀ (l : List MetricOp) (m : SystemMetrics), MetricsInv m →
      MetricsInv (l.foldl applyMetricOp m) := by
    intro l
    induction l with
    | nil => intro m hm; simpa using hm
    | cons op l ih =>
      intro m hm
      simpa [List.foldl] using ih _ (applyMetricOp_inv hm op)
  exact main ops SystemMetrics.init ⟨le_refl _, le_refl _⟩

theorem pyRoundTo_one_bounds {x : ℚ} (h0 : 0 ≤ x) (h1 : x ≤ 100) :
    0 ≤ pyRoundTo 1 x ∧ pyRoundTo 1 x ≤ 100 := by
  unfold pyRoundTo
  have hnn : (0 : ℚ) ≤ x * 10 ^ 1 := by positivity
  have hup : x * 10 ^ 1 ≤ ((1000 : ℤ) : ℚ) := by push_cast; linarith
  have r0 : (0 : ℤ) ≤ pyRound (x * 10 ^ 1) := pyRound_nonneg hnn
  have r1 : pyRound (x * 10 ^ 1) ≤ 1000 := pyRound_le_of_le hup
  have r0' : (0 : ℚ) ≤ (pyRound (x * 10 ^ 1) : ℚ) := by exact_mod_cast r0
  have r1' : (pyRound (x * 10 ^ 1) : ℚ) ≤ 1000 := by exact_mod_cast r1
  constructor
  · positivity
  · rw [div_le_iff₀ (by norm_num : (0:ℚ) < 10 ^ 1)]
    linarith

theorem metric_ratio_bounds {c t : ℕ} (hct : c ≤ t) (ht : t ≠ 0) :
    0 ≤ ((c : ℚ) / t) * 100 ∧ ((c : ℚ) / t) * 100 ≤ 100 := by
  have htpos : (0 : ℚ) < t := by
    exact_mod_cast Nat.pos_of_ne_zero ht
  have hle : (c : ℚ) ≤ t := by exact_mod_cast hct
  constructor
  · positivity
  · have : (c : ℚ) / t ≤ 1 := by
      rw [div_le_one htpos]; exact hle
    linarith

/-- Counterexample to C8 as stated: the code returns percentages — on
zero denominators both metrics are `100.0`, not the claimed `1.0`, and
with one of two healthy points correct `healthy_stability` is `50.0`,
not the ratio `1/2`. -/
theorem claim_C8_counterexample :
    healthy_stability SystemMetrics.init ≠ 1
    ∧ fault_capture_rate SystemMetrics.init ≠ 1
    ∧ healthy_stability (runMetricOps
        [.record_healthy_classification true,
         .record_healthy_classification false]) ≠ 1/2 := by
  have h50 : healthy_stability ⟨2, 1, 0, 0⟩ = 50 := by
    unfold healthy_stability pyRoundTo
    norm_num
    rw [show (500 : ℚ) = ((500 : ℤ) : ℚ) by norm_num, pyRound_intCast]
    norm_num
  have hrun : runMetricOps
      [.record_healthy_classification true,
       .record_healthy_classification false] = ⟨2, 1, 0, 0⟩ := rfl
  refine ⟨?_, ?_, ?_⟩
  · unfold healthy_stability
    norm_num [SystemMetrics.init]
  · unfold fault_capture_rate
    norm_num [SystemMetrics.init]
  · rw [hrun, h50]
    norm_num

/-- Claim C8 amended: at every reachable counter state the metrics are
percentages — `healthy_stability = round(100·healthy_correct /
healthy_total, 1)` and `fault_capture_rate = round(100·faulty_correct /
faulty_total, 1)`, each defaulting to `100.0` on a zero denominator,
and both always lie in `[0, 100]`. -/
theorem claim_C8_amended : ∀ ops : List MetricOp,
    ((runMetricOps ops).healthy_total = 0 →
      healthy_stability (runMetricOps ops) = 100)
    ∧ ((runMetricOps ops).healthy_total ≠ 0 →
      healthy_stability (runMetricOps ops)
        = pyRoundTo 1 (((runMetricOps ops).healthy_correct
            / (runMetricOps ops).healthy_total : ℚ) * 100))
    ∧ ((runMetricOps ops).faulty_total = 0 →
      fault_capture_rate (runMetricOps ops) = 100)
    ∧ ((runMetricOps ops).faulty_total ≠ 0 →
      fault_capture_rate (runMetricOps ops)
        = pyRoundTo 1 (((runMetricOps ops).faulty_correct
            / (runMetricOps ops).faulty_total : ℚ) * 100))
    ∧ 0 ≤ healthy_stability (runMetricOps ops)
    ∧ healthy_stability (runMetricOps ops) ≤ 100
    ∧ 0 ≤ fault_capture_rate (runMetricOps ops)
    ∧ fault_capture_rate (runMetricOps ops) ≤ 100 := by
  intro ops
  obtain ⟨hinv1, hinv2⟩ := runMetricOps_inv ops
  refine ⟨fun h => by unfold healthy_stability; rw [if_pos h],
    fun h => by unfold healthy_stability; rw [if_neg h],
    fun h => by unfold fault_capture_rate; rw [if_pos h],
    fun h => by unfold fault_capture_rate; rw [if_neg h], ?_, ?_, ?_, ?_⟩
  · unfold healthy_stability
    split_ifs with h
    · norm_num
    · exact (pyRoundTo_one_bounds (metric_ratio_bounds hinv1 h).1
        (metric_ratio_bounds hinv1 h).2).1
  · unfold healthy_stability
    split_ifs with h
    · norm_num
    · exact (pyRoundTo_one_bounds (metric_ratio_bounds hinv1 h).1
        (metric_ratio_bounds hinv1 h).2).2
  · unfold fault_capture_rate
    split_ifs with h
    · norm_num
    · exact (pyRoundTo_one_bounds (metric_ratio_bounds hinv2 h).1
        (metric_ratio_bounds hinv2 h).2).1
  · unfold fault_capture_rate
    split_ifs with h
    · norm_num
    · exact (pyRoundTo_one_bounds (metric_ratio_bounds hinv2 h).1
        (metric_ratio_bounds hinv2 h).2).2

/-- Witness for the amended C8 on a concrete recording sequence. -/
theorem claim_C8_amended_witness :
    healthy_stability (runMetricOps [.record_healthy_classification true])
      = pyRoundTo 1
          (((runMetricOps [.record_healthy_classification true]).healthy_correct
            / (runMetricOps
                [.record_healthy_classification true]).healthy_total : ℚ)
            * 100)
    ∧ fault_capture_rate (runMetricOps [.record_healthy_classification true])
      = 100 := by
  exact ⟨(claim_C8_amended [.record_healthy_classification true]).2.1
      (by decide),
    (claim_C8_amended [.record_healthy_classification true]).2.2.1 rfl⟩

-- ===========================================================================
-- C7 — is_faulty placement in persisted points
-- (src/backend/api/system_routes.py, integration_routes.py simple_ingest)
-- ===========================================================================

/-- A generated sensor reading (the four raw signals). -/
structure Reading where
  voltage_v : ℚ
  current_a : ℚ
  power_factor : ℚ
  vibration_g : ℚ
deriving DecidableEq

/-- A value written into a point field: float or boolean. -/
inductive FieldValue
  | float (q : ℚ)
  | boolean (b : Bool)
deriving DecidableEq

/-- One point handed to `db.write_point` / `db.write_batch`. -/
structure WritePoint where
  tags : List (String × String)
  fields : List (String × FieldValue)
deriving DecidableEq

/-- The point persisted by the calibration worker
(system_routes.py lines 371-386). -/
def run_calibration_point (asset_id : String) (r : Reading) : WritePoint :=
  { tags := [("asset_id", asset_id), ("asset_type", "motor"),
             ("source", "calibration")],
    fields := [("voltage_v", .float r.voltage_v),
               ("current_a", .float r.current_a),
               ("power_factor", .float r.power_factor),
               ("vibration_g", .float r.vibration_g),
               ("is_faulty", .boolean false)] }

/-- The point persisted by the healthy-monitoring loop
(system_routes.py lines 503-517). -/
def healthy_monitoring_point (asset_id : String) (r : Reading)
    (is_batch_anomaly : Bool) : WritePoint :=
  { tags := [("asset_id", asset_id), ("asset_type", "motor"),
             ("source", "healthy_monitoring")],
    fields := [("voltage_v", .float r.voltage_v),
               ("current_a", .float r.current_a),
               ("power_factor", .float r.power_factor),
               ("vibration_g", .float r.vibration_g),
               ("is_faulty", .boolean is_batch_anomaly)] }

/-- The point persisted by the fault-injection worker
(system_routes.py lines 596-612). -/
def fault_injection_point (asset_id fault_type severity : String)
    (r : Reading) (is_anomaly : Bool) : WritePoint :=
  { tags := [("asset_id", asset_id), ("asset_type", "motor"),
             ("source", "fault_injection"), ("fault_type", fault_type),
             ("severity", severity)],
    fields := [("voltage_v", .float r.voltage_v),
               ("current_a", .float r.current_a),
               ("power_factor", .float r.power_factor),
               ("vibration_g", .float r.vibration_g),
               ("is_faulty", .boolean is_anomaly)] }

/-- The point persisted by `resume_healthy_monitoring` after a reset
(system_routes.py lines 805-819). -/
def resume_healthy_point (asset_id : String) (r : Reading)
    (is_anomaly : Bool) : WritePoint :=
  { tags := [("asset_id", asset_id), ("asset_type", "motor"),
             ("source", "healthy_monitoring")],
    fields := [("voltage_v", .float r.voltage_v),
               ("current_a", .float r.current_a),
               ("power_factor", .float r.power_factor),
               ("vibration_g", .float r.vibration_g),
               ("is_faulty", .boolean is_anomaly)] }

/-- The point persisted by `simple_ingest`
(integration_routes.py lines 486-500): `is_faulty` goes into `tags` as
`str(detected_faulty).lower()` and is absent from `fields`. -/
def simple_ingest_point (asset_id : String) (r : Reading)
    (detected_faulty : Bool) : WritePoint :=
  { tags := [("asset_id", asset_id), ("asset_type", "motor"),
             ("is_faulty", if detected_faulty then "true" else "false")],
    fields := [("voltage_v", .float r.voltage_v),
               ("current_a", .float r.current_a),
               ("power_factor", .float r.power_factor),
               ("vibration_g", .float r.vibration_g)] }

/-- The storage invariant C7 claims of every persisted point. -/
def writes_is_faulty_as_boolean_field (p : WritePoint) : Prop :=
  (∃ b, ("is_faulty", FieldValue.boolean b) ∈ p.fields)
  ∧ "is_faulty" ∉ p.tags.map Prod.fst

/-- C7 evaluated on the code at a concrete reading: the four worker
paths store `is_faulty` as a boolean field and never tag it, but
`simple_ingest` writes `is_faulty` as the string tag `"true"` and not
as a field — contradicting the storage invariant the rest of the code
documents and relies on when reading back. -/
theorem claim_C7_code_eval :
    (writes_is_faulty_as_boolean_field
      (run_calibration_point "Motor-01" ⟨230, 15, 92/100, 15/100⟩))
    ∧ (writes_is_faulty_as_boolean_field
      (healthy_monitoring_point "Motor-01" ⟨230, 15, 92/100, 15/100⟩ false))
    ∧ (writes_is_faulty_as_boolean_field
      (fault_injection_point "Motor-01" "SPIKE" "SEVERE"
        ⟨260, 25, 70/100, 95/100⟩ true))
    ∧ (writes_is_faulty_as_boolean_field
      (resume_healthy_point "Motor-01" ⟨230, 15, 92/100, 15/100⟩ false))
    ∧ ¬ (writes_is_faulty_as_boolean_field
      (simple_ingest_point "Motor-01" ⟨230, 15, 92/100, 15/100⟩ true))
    ∧ ("is_faulty", "true")
        ∈ (simple_ingest_point "Motor-01" ⟨230, 15, 92/100, 15/100⟩ true).tags := by
  refine ⟨⟨⟨false, ?_⟩, ?_⟩, ⟨⟨false, ?_⟩, ?_⟩, ⟨⟨true, ?_⟩, ?_⟩,
    ⟨⟨false, ?_⟩, ?_⟩, ?_, ?_⟩ <;>
    simp [run_calibration_point, healthy_monitoring_point,
      fault_injection_point, resume_healthy_point, simple_ingest_point,
      writes_is_faulty_as_boolean_field]

-- ===========================================================================
-- C9, C10 — Batch features and batch anomaly detector
-- (src/backend/ml/batch_features.py, batch_detector.py)
-- ===========================================================================

/-- The four statistics extracted per signal. -/
structure SignalStats where
  mean : ℚ
  std : ℚ
  peak_to_peak : ℚ
  rms : ℚ
deriving DecidableEq

/-- The 16-dimensional batch feature vector: four statistics for each
of the four signals. -/
structure BatchFeatures where
  voltage_v : SignalStats
  current_a : SignalStats
  power_factor : SignalStats
  vibration_g : SignalStats
deriving DecidableEq

/-- `np.mean` of a list of rationals. -/
def listMean (xs : List ℚ) : ℚ := xs.sum / xs.length

/-- `np.max` over the batch (extraction never reaches the empty case). -/
def listMax : List ℚ → ℚ
  | [] => 0
  | x :: xs => xs.foldl max x

/-- `np.min` over the batch. -/
def listMin : List ℚ → ℚ
  | [] => 0
  | x :: xs => xs.foldl min x

/-- The statistics of one signal (batch_features.py lines 72-93). The
square root in `std` and `rms` is not rational, so `np.sqrt` is carried
as the abstract parameter `sq`. -/
def signalStats (sq : ℚ → ℚ) (values : List ℚ) : SignalStats :=
  { mean := listMean values,
    std := sq (listMean (values.map (fun v => (v - listMean values) ^ 2))),
    peak_to_peak := listMax values - listMin values,
    rms := sq (listMean (values.map (fun v => v ^ 2))) }

/-- `extract_batch_features` (batch_features.py lines 51-95): `none`
(the "window too small" outcome) for fewer than 10 points, otherwise
the 16 statistics. -/
def extract_batch_features (sq : ℚ → ℚ) (raw_points : List Reading) :
    Option BatchFeatures :=
  if raw_points.length < 10 then none
  else some
    { voltage_v := signalStats sq (raw_points.map (·.voltage_v)),
      current_a := signalStats sq (raw_points.map (·.current_a)),
      power_factor := signalStats sq (raw_points.map (·.power_factor)),
      vibration_g := signalStats sq (raw_points.map (·.vibration_g)) }

/-- The feature dict flattened in the canonical `BATCH_FEATURE_NAMES`
order (batch_detector.py lines 179-183). -/
def BatchFeatures.toVector (f : BatchFeatures) : List ℚ :=
  [f.voltage_v.mean, f.voltage_v.std, f.voltage_v.peak_to_peak,
   f.voltage_v.rms,
   f.current_a.mean, f.current_a.std, f.current_a.peak_to_peak,
   f.current_a.rms,
   f.power_factor.mean, f.power_factor.std, f.power_factor.peak_to_peak,
   f.power_factor.rms,
   f.vibration_g.mean, f.vibration_g.std, f.vibration_g.peak_to_peak,
   f.vibration_g.rms]

/-- `BatchAnomalyDetector`: the fitted `StandardScaler` and
`IsolationForest` are trained data, not code, so their composition
`decision_function ∘ transform` is carried as the abstract
`decision_function` field; `threshold_score` is the 99th-percentile
calibration value fixed by `train` (batch_detector.py lines 142-144). -/
structure BatchAnomalyDetector where
  is_trained : Bool
  threshold_score : ℚ
  decision_function : List ℚ → ℚ

/-- `_calibrated_score` (batch_detector.py lines 300-308):
`raw = -decision`, `factor = threshold_score * 1.5`, divide when the
factor is positive, shift by 0.5 otherwise, clip to `[0, 1]`. -/
def calibrated_score (d : BatchAnomalyDetector) (decision_value : ℚ) : ℚ :=
  min 1 (max 0
    (if d.threshold_score * (3/2) > 0 then
      -decision_value / (d.threshold_score * (3/2))
    else -decision_value + 1/2))

/-- `score_batch` (batch_detector.py lines 159-190). -/
def score_batch (d : BatchAnomalyDetector) (features : BatchFeatures) :
    Except String ℚ :=
  if d.is_trained = false then .error "Model not trained."
  else .ok (calibrated_score d (d.decision_function features.toVector))

/-- `score_raw_batch` (batch_detector.py lines 192-205): extract, score
— returning `0.0` when extraction yields no feature vector. -/
def score_raw_batch (sq : ℚ → ℚ) (d : BatchAnomalyDetector)
    (raw_points : List Reading) : Except String ℚ :=
  match extract_batch_features sq raw_points with
  | none => .ok 0
  | some feats => score_batch d feats

/-- Claim C9: whenever extraction produces a feature vector,
`score_raw_batch` is exactly `score_batch` of that vector; a window of
fewer than 10 samples never produces a feature vector. -/
theorem claim_C9 : ∀ (sq : ℚ → ℚ) (d : BatchAnomalyDetector)
    (raw_points : List Reading),
    (∀ feats, extract_batch_features sq raw_points = some feats →
      score_raw_batch sq d raw_points = score_batch d feats)
    ∧ (raw_points.length < 10 →
      extract_batch_features sq raw_points = none
      ∧ score_raw_batch sq d raw_points = .ok 0) := by
  intro sq d raw_points
  constructor
  · intro feats hf
    unfold score_raw_batch
    rw [hf]
  · intro hlen
    have hnone : extract_batch_features sq raw_points = none := by
      unfold extract_batch_features
      rw [if_pos hlen]
    refine ⟨hnone, ?_⟩
    unfold score_raw_batch
    rw [hnone]

/-- Witness for C9 on a five-point window: extraction refuses it and
the convenience score is 0. -/
theorem claim_C9_witness :
    extract_batch_features id
        (List.replicate 5 ⟨230, 15, 92/100, 15/100⟩) = none
    ∧ score_raw_batch id ⟨true, 1, fun _ => 0⟩
        (List.replicate 5 ⟨230, 15, 92/100, 15/100⟩) = .ok 0 := by
  exact (claim_C9 id ⟨true, 1, fun _ => 0⟩
    (List.replicate 5 ⟨230, 15, 92/100, 15/100⟩)).2 (by simp)

/-- Claim C10: for a trained detector the calibrated score is in
`[0,1]`; it is `clip(-d / (threshold·1.5), 0, 1)` when `threshold·1.5`
is positive and `clip(-d + 0.5, 0, 1)` otherwise, so calibration never
divides by a non-positive factor. -/
theorem claim_C10 : ∀ (d : BatchAnomalyDetector) (features : BatchFeatures),
    d.is_trained = true →
    ∃ s, score_batch d features = .ok s
      ∧ 0 ≤ s ∧ s ≤ 1
      ∧ (d.threshold_score * (3/2) > 0 →
          s = min 1 (max 0 (-(d.decision_function features.toVector)
                / (d.threshold_score * (3/2)))))
      ∧ (¬ d.threshold_score * (3/2) > 0 →
          s = min 1 (max 0 (-(d.decision_function features.toVector)
                + 1/2))) := by
  intro d f ht
  refine ⟨calibrated_score d (d.decision_function f.toVector),
    ?_, ?_, ?_, ?_, ?_⟩
  · simp [score_batch, ht]
  · exact le_min (by norm_num) (le_max_left 0 _)
  · exact min_le_left _ _
  · intro hpos
    unfold calibrated_score
    rw [if_pos hpos]
  · intro hneg
    unfold calibrated_score
    rw [if_neg hneg]

/-- Witness for C10 on a concrete trained detector with threshold 1 and
constant decision function 0. -/
theorem claim_C10_witness :
    ∃ s, score_batch ⟨true, 1, fun _ => 0⟩
        ⟨⟨0,0,0,0⟩, ⟨0,0,0,0⟩, ⟨0,0,0,0⟩, ⟨0,0,0,0⟩⟩ = .ok s
      ∧ 0 ≤ s ∧ s ≤ 1
      ∧ ((1 : ℚ) * (3/2) > 0 →
          s = min 1 (max 0 (-(0 : ℚ) / ((1 : ℚ) * (3/2)))))
      ∧ (¬ (1 : ℚ) * (3/2) > 0 →
          s = min 1 (max 0 (-(0 : ℚ) + 1/2))) := by
  exact claim_C10 ⟨true, 1, fun _ => 0⟩
    ⟨⟨0,0,0,0⟩, ⟨0,0,0,0⟩, ⟨0,0,0,0⟩, ⟨0,0,0,0⟩⟩ rfl

end PredMaint
